import Mathlib

/-!
Verification of the tableau4go REST client (`client.go`) against its
natural-language specification.

The Go code is shallowly embedded: the session value `API` is a structure,
HTTP dispatch and XML (un)marshalling are abstract function parameters
(the network and the `encoding/xml` library are outside the program),
URL construction via `fmt.Sprintf` is string concatenation, and the
status-code handling of `makeRequest` is an explicit Lean function.
Mutation of the session (`api.AuthToken = ...`) is explicit state passing:
operations return the updated `API` value.
-/

set_option maxRecDepth 100000

namespace Tableau4go

/-- Session/credential holder, from the fields of `API` used in `client.go`:
server base URL, API version, default-site configuration, auth token and
multipart boundary. -/
structure API where
  Server : String
  Version : String
  DefaultSiteName : String
  OmitDefaultSiteName : Bool
  AuthToken : String
  Boundary : String
  deriving Repr, DecidableEq

/-- User entity; `client.go` uses the `ID` field (`User{ID: userIDToImpersonate}`). -/
structure User where
  ID : String := ""
  deriving Repr, DecidableEq

/-- Site entity; `client.go` uses `ContentUrl` (`Site{ContentUrl: siteName}`) and `ID`. -/
structure Site where
  ID : String := ""
  Name : String := ""
  ContentUrl : String := ""
  deriving Repr, DecidableEq

/-- Project entity; `client.go` uses `ID` and `Name`; `Project{}` is the zero value. -/
structure Project where
  ID : String := ""
  Name : String := ""
  deriving Repr, DecidableEq

/-- Datasource entity; `client.go` uses `Name` (`tdsMetadata.Name`). -/
structure Datasource where
  ID : String := ""
  Name : String := ""
  deriving Repr, DecidableEq

/-- Sign-in credentials, from their construction in `Signin`:
`Credentials{Name, Password}`, optional `Impersonate` user pointer, optional
`Site` pointer, and the `Token` read back from the auth response
(`retval.Credentials.Token`). Go nil pointers are `none`. -/
structure Credentials where
  Name : String := ""
  Password : String := ""
  Token : String := ""
  Impersonate : Option User := none
  Site : Option Site := none
  deriving Repr, DecidableEq

/-- Auth response envelope; `Signin` reads `retval.Credentials.Token`. -/
structure AuthResponse where
  Credentials : Credentials := {}
  deriving Repr, DecidableEq

/-- Modelled from the spec: the structured error decoded from the server's
XML error body, "carrying the server's message/code" (spec section 7); the concrete
field layout lives in the repository's model definitions outside `client.go`. -/
structure TableauError where
  Code : String := ""
  Message : String := ""
  deriving Repr, DecidableEq

/-- Error values a call can surface, following `client.go`:
the `ErrDoesNotExist` sentinel, a decoded server error, an
`xml.Unmarshal` failure, a transport failure, a body-read failure,
an outgoing-payload serialization failure, and a `fmt.Errorf` message. -/
inductive GoError where
  | doesNotExist
  | serverError (e : TableauError)
  | xmlUnmarshalError (msg : String)
  | transportError (msg : String)
  | readBodyError (msg : String)
  | serializeError (msg : String)
  | errorf (msg : String)
  deriving Repr, DecidableEq

def content_type_header : String := "Content-Type"

def content_length_header : String := "Content-Length"

def auth_header : String := "X-Tableau-Auth"

def application_xml_content_type : String := "application/xml"

def POST : String := "POST"

def GET : String := "GET"

def DELETE : String := "DELETE"

/-- Rendering of a Go `bool` under `fmt.Sprintf` verb `%v`. -/
def goBool (b : Bool) : String := if b then "true" else "false"

/-- Header list built by `makeRequest` (client.go lines 358-383): a
`Content-Length` header when the payload is non-empty, then every entry of the
supplied header mapping, then the `X-Tableau-Auth` header when the session
token is non-empty. -/
def requestHeaders (api : API) (payload : String) (headers : List (String × String)) :
    List (String × String) :=
  let req : List (String × String) :=
    if payload.length > 0 then [(content_length_header, toString payload.length)] else []
  let req := req ++ headers
  if api.AuthToken.length > 0 then req ++ [(auth_header, api.AuthToken)] else req

/-- Status-code and body handling of `makeRequest` after the response body has
been read (client.go lines 397-418). `parseErrorBody` stands for
`xml.Unmarshal` into `ErrorResponse`; `decode` stands for the decode of the
body into the `result` target (`none` when `result == nil`). -/
def handleResponse {α : Type} (parseErrorBody : String → Except String TableauError)
    (decode : Option (String → Except String α)) (status : Nat) (body : String) :
    Except GoError (Option α) :=
  if status = 404 then
    Except.error GoError.doesNotExist
  else if 300 ≤ status then
    match parseErrorBody body with
    | Except.error e => Except.error (GoError.xmlUnmarshalError e)
    | Except.ok terr => Except.error (GoError.serverError terr)
  else
    match decode with
    | none => Except.ok none
    | some d =>
      match d body with
      | Except.error e => Except.error (GoError.xmlUnmarshalError e)
      | Except.ok v => Except.ok (some v)

def signinURL (api : API) : String :=
  api.Server ++ "/api/" ++ api.Version ++ "/auth/signin"

def signoutURL (api : API) : String :=
  api.Server ++ "/api/" ++ api.Version ++ "/auth/signout"

def serverInfoURL (api : API) : String :=
  api.Server ++ "/api/" ++ "2.4" ++ "/serverinfo"

def querySitesURL (api : API) : String :=
  api.Server ++ "/api/" ++ api.Version ++ "/sites/"

def querySiteURL (api : API) (siteID : String) (includeStorage : Bool) : String :=
  let url := api.Server ++ "/api/" ++ api.Version ++ "/sites/" ++ siteID
  if includeStorage then url ++ "?includeStorage=" ++ goBool includeStorage else url

def querySiteByKeyURL (api : API) (key value : String) (includeStorage : Bool) : String :=
  let url := api.Server ++ "/api/" ++ api.Version ++ "/sites/" ++ value ++ "?key=" ++ key
  if includeStorage then url ++ "&includeStorage=" ++ goBool includeStorage else url

def queryUserOnSiteURL (api : API) (siteID userID : String) : String :=
  api.Server ++ "/api/" ++ api.Version ++ "/sites/" ++ siteID ++ "/users/" ++ userID

def queryProjectsURL (api : API) (siteID : String) : String :=
  api.Server ++ "/api/" ++ api.Version ++ "/sites/" ++ siteID ++ "/projects"

def queryViewsURL (api : API) (siteID : String) : String :=
  api.Server ++ "/api/" ++ api.Version ++ "/sites/" ++ siteID ++ "/views"

def queryWorkbookViewsURL (api : API) (siteID workbookID encodedValues : String) : String :=
  let params := if encodedValues != "" then "?" ++ encodedValues else encodedValues
  api.Server ++ "/api/" ++ api.Version ++ "/sites/" ++ siteID ++ "/workbooks/" ++ workbookID
    ++ "/views" ++ params

def queryViewDataURL (api : API) (siteID viewID : String) : String :=
  api.Server ++ "/api/" ++ api.Version ++ "/sites/" ++ siteID ++ "/views/" ++ viewID ++ "/data"

def queryWorkbooksURL (api : API) (siteID encodedValues : String) : String :=
  let params := if encodedValues != "" then "?" ++ encodedValues else encodedValues
  api.Server ++ "/api/" ++ api.Version ++ "/sites/" ++ siteID ++ "/workbooks" ++ params

def queryDatasourcesURL (api : API) (siteID : String) : String :=
  api.Server ++ "/api/" ++ api.Version ++ "/sites/" ++ siteID ++ "/datasources"

def createProjectURL (api : API) (siteID : String) : String :=
  api.Server ++ "/api/" ++ api.Version ++ "/sites/" ++ siteID ++ "/projects"

def publishDatasourceURL (api : API) (siteID datasourceType : String) (overwrite : Bool) :
    String :=
  api.Server ++ "/api/" ++ api.Version ++ "/sites/" ++ siteID ++ "/datasources?datasourceType="
    ++ datasourceType ++ "&overwrite=" ++ goBool overwrite

def deleteDatasourceURL (api : API) (siteID datasourceID : String) : String :=
  api.Server ++ "/api/" ++ api.Version ++ "/sites/" ++ siteID ++ "/datasources/" ++ datasourceID

def deleteProjectURL (api : API) (siteID projectID : String) : String :=
  api.Server ++ "/api/" ++ api.Version ++ "/sites/" ++ siteID ++ "/projects/" ++ projectID

def deleteSiteURL (api : API) (siteID : String) : String :=
  api.Server ++ "/api/" ++ api.Version ++ "/sites/" ++ siteID

def deleteSiteByKeyURL (api : API) (key value : String) : String :=
  api.Server ++ "/api/" ++ api.Version ++ "/sites/" ++ value ++ "?key=" ++ key

/-- Credentials value built by `Signin` (client.go lines 45-57): name/password,
optional impersonation target, and the site selector, which is blanked exactly
when `OmitDefaultSiteName` is set and the requested content URL equals the
configured default site name. -/
def signinCredentials (api : API) (username password contentURL userIDToImpersonate : String) :
    Credentials :=
  let credentials : Credentials := { Name := username, Password := password }
  let credentials :=
    if userIDToImpersonate.length > 0 then
      { credentials with Impersonate := some { ID := userIDToImpersonate } }
    else credentials
  let siteName :=
    if api.OmitDefaultSiteName then
      if contentURL == api.DefaultSiteName then "" else contentURL
    else contentURL
  { credentials with Site := some { ContentUrl := siteName } }

/-- The `Signin` operation (client.go lines 43-72). `requestXML` stands for
`SigninRequest.XML()` (serialization of the credentials, outside `client.go`);
`dispatch` stands for `makeRequest` called with URL, method, payload and
headers, yielding either an error or the decoded `AuthResponse`. On dispatch
success the token of the response is stored into the session. -/
def Signin (api : API) (username password contentURL userIDToImpersonate : String)
    (requestXML : Credentials → Except String String)
    (dispatch : String → String → String → List (String × String) →
      Except GoError AuthResponse) :
    API × Option GoError :=
  let url := signinURL api
  let credentials := signinCredentials api username password contentURL userIDToImpersonate
  match requestXML credentials with
  | Except.error e => (api, some (GoError.serializeError e))
  | Except.ok signInXML =>
    let headers := [(content_type_header, application_xml_content_type)]
    match dispatch url POST signInXML headers with
    | Except.error err => (api, some err)
    | Except.ok retval => ({ api with AuthToken := retval.Credentials.Token }, none)

/-- The `Signout` operation (client.go lines 76-82): a POST with no body and no
decode target; the session value is not modified. -/
def Signout (api : API)
    (dispatch : String → String → List (String × String) → Option GoError) :
    API × Option GoError :=
  let url := signoutURL api
  let headers := [(content_type_header, application_xml_content_type)]
  (api, dispatch url POST headers)

/-- The `range`-loop of `GetProjectByName` (client.go lines 215-219): return
the first project whose `Name` equals the argument. -/
def findFirstProjectNamed : List Project → String → Option Project
  | [], _ => none
  | project :: rest, name =>
    if project.Name == name then some project else findFirstProjectNamed rest name

/-- `GetProjectByName` (client.go lines 210-221), over the outcome of the
underlying `QueryProjects` call: on query error propagate it with a zero
`Project`; otherwise scan for the first name match, and when none exists
return a zero `Project` with a `fmt.Errorf` not-found error naming the
requested project. -/
def GetProjectByName (queryProjectsResult : Except GoError (List Project)) (name : String) :
    Project × Option GoError :=
  match queryProjectsResult with
  | Except.error err => ({}, some err)
  | Except.ok projects =>
    match findFirstProjectNamed projects name with
    | some project => (project, none)
    | none => ({}, some (GoError.errorf ("Project Named '" ++ name ++ "' Not Found")))

/-- Multipart body assembled by `publishDatasource` (client.go lines 282-297):
opening boundary line, `request_payload` part holding the serialized metadata
XML, second boundary line, `tableau_datasource` part with a `.tds` filename
holding the raw datasource content, and the closing delimiter line. -/
def publishPayload (boundary name xmlRepresentation datasource : String) : String :=
  "--" ++ boundary ++ "\r\n"
  ++ "Content-Disposition: name=\"request_payload\"\r\n"
  ++ "Content-Type: text/xml\r\n"
  ++ "\r\n"
  ++ xmlRepresentation
  ++ "\r\n--" ++ boundary ++ "\r\n"
  ++ "Content-Disposition: name=\"tableau_datasource\"; filename=\"" ++ name ++ ".tds\"\r\n"
  ++ "Content-Type: application/octet-stream\r\n"
  ++ "\r\n"
  ++ datasource
  ++ "\r\n--" ++ boundary ++ "--\r\n"

/-- `publishDatasource` (client.go lines 280-302). The named return value
`retval *Datasource` is the nil pointer (`none`) and is never assigned in the
function body: `makeRequest` receives the nil pointer by value as its decode
target, so nothing can be written through it and the function returns the
pointer it declared. `requestXML` stands for `DatasourceCreateRequest.XML()`;
`dispatch` stands for `makeRequest`, yielding the call's error outcome. -/
def publishDatasource (api : API) (siteID : String) (tdsMetadata : Datasource)
    (datasource datasourceType : String) (overwrite : Bool)
    (requestXML : Datasource → Except String String)
    (dispatch : String → String → String → List (String × String) → Option GoError) :
    Option Datasource × Option GoError :=
  let retval : Option Datasource := none
  let url := publishDatasourceURL api siteID datasourceType overwrite
  match requestXML tdsMetadata with
  | Except.error e => (retval, some (GoError.serializeError e))
  | Except.ok xmlRepresentation =>
    let payload := publishPayload api.Boundary tdsMetadata.Name xmlRepresentation datasource
    let headers := [(content_type_header, "multipart/mixed; boundary=" ++ api.Boundary)]
    (retval, dispatch url POST payload headers)

/-- `PublishTDS` (client.go lines 275-277): publish with datasource type `tds`. -/
def PublishTDS (api : API) (siteID : String) (tdsMetadata : Datasource) (fullTds : String)
    (overwrite : Bool) (requestXML : Datasource → Except String String)
    (dispatch : String → String → String → List (String × String) → Option GoError) :
    Option Datasource × Option GoError :=
  publishDatasource api siteID tdsMetadata fullTds "tds" overwrite requestXML dispatch

/-- Sample session value used by the closed witness statements below. -/
def sampleAPI : API :=
  { Server := "http://tableau.example", Version := "2.0", DefaultSiteName := "Default",
    OmitDefaultSiteName := false, AuthToken := "", Boundary := "B1" }

/-- The loop of `GetProjectByName` returns exactly the first list element whose
`Name` matches, in the sense of `List.find?`. -/
theorem findFirstProjectNamed_eq_find (projects : List Project) (name : String) :
    findFirstProjectNamed projects name = projects.find? (fun p => p.Name == name) := by
  induction projects with
  | nil => rfl
  | cons project rest ih =>
    by_cases h : project.Name == name
    · simp [findFirstProjectNamed, List.find?, h]
    · simp only [Bool.not_eq_true] at h
      simp [findFirstProjectNamed, List.find?, h, ih]

/-- C1: every response with HTTP status 404 yields the `ErrDoesNotExist`
sentinel, for every body (empty or malformed included), every structured-error
parser and every decode target — the body is neither parsed as a structured
error nor decoded into the result. -/
theorem makeRequest_404_yields_doesNotExist {α : Type}
    (parseErrorBody : String → Except String TableauError)
    (decode : Option (String → Except String α)) (body : String) :
    handleResponse parseErrorBody decode 404 body = Except.error GoError.doesNotExist := by
  simp [handleResponse]

/-- C2: for a response with status at least 300 and different from 404,
`makeRequest` decodes the body with the structured-error parser and fails with
the decoded server error; when that parse fails it fails with the parse error
instead; and the outcome is identical for every such status, so the returned
parse error carries no information about the original HTTP status code. -/
theorem makeRequest_ge300_decodes_error_body {α : Type}
    (parseErrorBody : String → Except String TableauError)
    (decode : Option (String → Except String α)) (status : Nat) (body : String)
    (h300 : 300 ≤ status) (h404 : status ≠ 404) :
    (∀ terr, parseErrorBody body = Except.ok terr →
      handleResponse parseErrorBody decode status body =
        Except.error (GoError.serverError terr)) ∧
    (∀ e, parseErrorBody body = Except.error e →
      handleResponse parseErrorBody decode status body =
        Except.error (GoError.xmlUnmarshalError e)) ∧
    (∀ status₂, 300 ≤ status₂ → status₂ ≠ 404 →
      handleResponse parseErrorBody decode status body =
        handleResponse parseErrorBody (α := α) decode status₂ body) := by
  refine ⟨fun terr hok => ?_, fun e herr => ?_, fun status₂ h300₂ h404₂ => ?_⟩
  · simp [handleResponse, h404, h300, hok]
  · simp [handleResponse, h404, h300, herr]
  · simp [handleResponse, h404, h300, h404₂, h300₂]

/-- Closed witness for the status-at-least-300 branch of `makeRequest`:
at status 500 with a parser that fails, the call fails with the parse error. -/
theorem makeRequest_ge300_decodes_error_body_witness :
    handleResponse (fun _ => Except.error "parse failed")
      (none : Option (String → Except String Unit)) 500 "not xml" =
      Except.error (GoError.xmlUnmarshalError "parse failed") :=
  (makeRequest_ge300_decodes_error_body (fun _ => Except.error "parse failed")
    (none : Option (String → Except String Unit)) 500 "not xml"
    (by decide) (by decide)).2.1 "parse failed" rfl

/-- C3: `Signin` stores the token of the decoded auth response into the
session exactly when the dispatched request succeeds; a dispatch error is
propagated and leaves the session (its `AuthToken` field included) unchanged. -/
theorem signin_stores_token_iff_dispatch_succeeds (api : API)
    (username password contentURL userIDToImpersonate signInXML : String)
    (requestXML : Credentials → Except String String)
    (dispatch : String → String → String → List (String × String) →
      Except GoError AuthResponse)
    (hser : requestXML (signinCredentials api username password contentURL userIDToImpersonate)
      = Except.ok signInXML) :
    (∀ retval, dispatch (signinURL api) POST signInXML
        [(content_type_header, application_xml_content_type)] = Except.ok retval →
      Signin api username password contentURL userIDToImpersonate requestXML dispatch =
        ({ api with AuthToken := retval.Credentials.Token }, none)) ∧
    (∀ err, dispatch (signinURL api) POST signInXML
        [(content_type_header, application_xml_content_type)] = Except.error err →
      Signin api username password contentURL userIDToImpersonate requestXML dispatch =
        (api, some err)) := by
  constructor
  · intro retval hok
    simp [Signin, hser, hok]
  · intro err herr
    simp [Signin, hser, herr]

/-- Closed witness for `Signin`: with a dispatcher that returns the token
`tok-123`, the session ends up holding `tok-123` and no error is reported. -/
theorem signin_stores_token_iff_dispatch_succeeds_witness :
    Signin sampleAPI "bob" "pw" "" "" (fun _ => Except.ok "<xml/>")
      (fun _ _ _ _ => Except.ok { Credentials := { Token := "tok-123" } }) =
      ({ sampleAPI with AuthToken := "tok-123" }, none) :=
  (signin_stores_token_iff_dispatch_succeeds sampleAPI "bob" "pw" "" "" "<xml/>"
    (fun _ => Except.ok "<xml/>")
    (fun _ _ _ _ => Except.ok { Credentials := { Token := "tok-123" } }) rfl).1
    { Credentials := { Token := "tok-123" } } rfl

/-- A non-empty string has positive length. -/
theorem string_length_pos_of_ne_empty {s : String} (h : s ≠ "") : 0 < s.length := by
  cases s with
  | mk data =>
    cases data with
    | nil => exact absurd rfl h
    | cons c cs => simp

/-- C4: after a successful `Signin` that stored a non-empty token, every
request subsequently built by `makeRequest` on that session carries the stored
token as the `X-Tableau-Auth` header; and on a session whose token is empty,
`makeRequest` adds no `X-Tableau-Auth` header (given that the per-operation
header mapping, which in `client.go` only ever holds `Content-Type`, does not
itself contain one). -/
theorem signin_then_requests_carry_auth_header (api : API)
    (username password contentURL userIDToImpersonate signInXML payload : String)
    (hdrs : List (String × String))
    (requestXML : Credentials → Except String String)
    (dispatch : String → String → String → List (String × String) →
      Except GoError AuthResponse)
    (retval : AuthResponse)
    (hser : requestXML (signinCredentials api username password contentURL userIDToImpersonate)
      = Except.ok signInXML)
    (hdisp : dispatch (signinURL api) POST signInXML
      [(content_type_header, application_xml_content_type)] = Except.ok retval)
    (htok : retval.Credentials.Token ≠ "") :
    ((auth_header, retval.Credentials.Token) ∈
      requestHeaders
        (Signin api username password contentURL userIDToImpersonate requestXML dispatch).fst
        payload hdrs) ∧
    (∀ api₂ : API, api₂.AuthToken = "" → ∀ payload₂ hdrs₂,
      (∀ v, (auth_header, v) ∉ hdrs₂) →
      ∀ v, (auth_header, v) ∉ requestHeaders api₂ payload₂ hdrs₂) := by
  constructor
  · have hfst :
        (Signin api username password contentURL userIDToImpersonate requestXML dispatch).fst =
          { api with AuthToken := retval.Credentials.Token } := by
      simp [Signin, hser, hdisp]
    rw [hfst]
    have hlen : 0 < retval.Credentials.Token.length := string_length_pos_of_ne_empty htok
    simp [requestHeaders, hlen]
  · intro api₂ hempty payload₂ hdrs₂ hno v hmem
    have hlen : api₂.AuthToken.length = 0 := by rw [hempty]; rfl
    by_cases hp : 0 < payload₂.length
    · simp [requestHeaders, hlen, hp, auth_header, content_length_header] at hmem
      exact hno v hmem
    · simp [requestHeaders, hlen, hp] at hmem
      exact hno v hmem

/-- Closed witness for the auth-header property: a sign-in that returned the
token `tok-123` makes the next request carry `X-Tableau-Auth: tok-123`. -/
theorem signin_then_requests_carry_auth_header_witness :
    (auth_header, "tok-123") ∈
      requestHeaders
        (Signin sampleAPI "bob" "pw" "" "" (fun _ => Except.ok "<xml/>")
          (fun _ _ _ _ => Except.ok { Credentials := { Token := "tok-123" } })).fst
        "<body/>" [(content_type_header, application_xml_content_type)] :=
  (signin_then_requests_carry_auth_header sampleAPI "bob" "pw" "" "" "<xml/>" "<body/>"
    [(content_type_header, application_xml_content_type)]
    (fun _ => Except.ok "<xml/>")
    (fun _ _ _ _ => Except.ok { Credentials := { Token := "tok-123" } })
    { Credentials := { Token := "tok-123" } } rfl rfl (by simp)).1

/-- C5: the site selector placed into the sign-in credentials is blank exactly
when `OmitDefaultSiteName` is set and the requested content URL equals the
configured default site name, and is the content URL argument unchanged in
every other case. (`SigninRequest.XML()`, which serializes this value, lives
outside `client.go`.) -/
theorem signin_site_selector_blanked_iff_default (api : API)
    (username password contentURL userIDToImpersonate : String) :
    (signinCredentials api username password contentURL userIDToImpersonate).Site =
      some { ContentUrl :=
        if api.OmitDefaultSiteName ∧ contentURL = api.DefaultSiteName then ""
        else contentURL } := by
  by_cases h1 : api.OmitDefaultSiteName <;> by_cases h2 : contentURL = api.DefaultSiteName <;>
    simp [signinCredentials, h1, h2]

/-- C7: when the underlying project query succeeds, `GetProjectByName` returns
the first listed project whose `Name` equals the requested name, and when no
project matches it returns the zero-value `Project` with a not-found error
whose message contains the literal requested name. -/
theorem getProjectByName_returns_first_match (projects : List Project) (name : String) :
    (GetProjectByName (Except.ok projects) name =
      match projects.find? (fun p => p.Name == name) with
      | some project => (project, none)
      | none => ({}, some (GoError.errorf ("Project Named '" ++ name ++ "' Not Found")))) ∧
    (∃ before after, "Project Named '" ++ name ++ "' Not Found" = before ++ name ++ after) := by
  refine ⟨?_, ⟨"Project Named '", "' Not Found", rfl⟩⟩
  simp only [GetProjectByName, findFirstProjectNamed_eq_find]

/-- C8 (code bug): `PublishTDS` can never return a decoded datasource entity —
the named return `retval *Datasource` of `publishDatasource` is the nil
pointer, is passed by value to `makeRequest` as the decode target, and is
never assigned, so the returned pointer is nil on every path, success
included. -/
theorem publishTDS_returns_nil_datasource (api : API) (siteID fullTds : String)
    (tdsMetadata : Datasource) (overwrite : Bool)
    (requestXML : Datasource → Except String String)
    (dispatch : String → String → String → List (String × String) → Option GoError) :
    (PublishTDS api siteID tdsMetadata fullTds overwrite requestXML dispatch).fst = none := by
  unfold PublishTDS publishDatasource
  cases requestXML tdsMetadata <;> rfl

/-- C9: `Signout` leaves the session's `AuthToken` field untouched, whatever
the dispatch outcome is. -/
theorem signout_preserves_authToken (api : API)
    (dispatch : String → String → List (String × String) → Option GoError) :
    (Signout api dispatch).fst.AuthToken = api.AuthToken := rfl

/-- C6 counterexample: the multipart body does not literally end with the
characters `--B1--` — the closing delimiter line is followed by a trailing
CRLF (`"<m/>"` stands in for the serialized metadata XML; the trailing bytes
of the body do not depend on it). -/
theorem publishPayload_closing_counterexample :
    ¬ ("--B1--".data <:+ (publishPayload "B1" "Sales" "<m/>" "<rows/>").data) := by
  decide

/-- C6 (amended): for boundary `B1`, datasource name `Sales` and content
`<rows/>`, the assembled multipart body begins with `--B1`, contains a
`request_payload` part holding the serialized metadata XML, contains a
`tableau_datasource` part with filename `Sales.tds` whose body is `<rows/>`,
and ends with the closing delimiter `--B1--` followed by a trailing CRLF. -/
theorem publishPayload_multipart_structure (xmlRepresentation : String) :
    "--B1".data <+: (publishPayload "B1" "Sales" xmlRepresentation "<rows/>").data ∧
    ("Content-Disposition: name=\"request_payload\"\r\n".data
        ++ "Content-Type: text/xml\r\n".data ++ "\r\n".data ++ xmlRepresentation.data)
      <:+: (publishPayload "B1" "Sales" xmlRepresentation "<rows/>").data ∧
    ("Content-Disposition: name=\"tableau_datasource\"; filename=\"Sales.tds\"\r\n".data
        ++ "Content-Type: application/octet-stream\r\n".data ++ "\r\n".data
        ++ "<rows/>".data ++ "\r\n".data)
      <:+: (publishPayload "B1" "Sales" xmlRepresentation "<rows/>").data ∧
    ("--B1--".data ++ "\r\n".data) <:+ (publishPayload "B1" "Sales" xmlRepresentation "<rows/>").data := by
  refine ⟨?_, ?_, ?_, ?_⟩
  · have hb : "--B1".data = "--".data ++ "B1".data := by decide
    rw [hb]
    refine ⟨"\r\n".data ++ "Content-Disposition: name=\"request_payload\"\r\n".data
      ++ "Content-Type: text/xml\r\n".data ++ "\r\n".data ++ xmlRepresentation.data
      ++ "\r\n--".data ++ "B1".data ++ "\r\n".data
      ++ "Content-Disposition: name=\"tableau_datasource\"; filename=\"".data ++ "Sales".data
      ++ ".tds\"\r\n".data ++ "Content-Type: application/octet-stream\r\n".data ++ "\r\n".data
      ++ "<rows/>".data ++ "\r\n--".data ++ "B1".data ++ "--\r\n".data, ?_⟩
    simp [publishPayload, String.data_append, List.append_assoc]
  · refine ⟨"--".data ++ "B1".data ++ "\r\n".data,
      "\r\n--".data ++ "B1".data ++ "\r\n".data
      ++ "Content-Disposition: name=\"tableau_datasource\"; filename=\"".data ++ "Sales".data
      ++ ".tds\"\r\n".data ++ "Content-Type: application/octet-stream\r\n".data ++ "\r\n".data
      ++ "<rows/>".data ++ "\r\n--".data ++ "B1".data ++ "--\r\n".data, ?_⟩
    simp [publishPayload, String.data_append, List.append_assoc]
  · have hf : "Content-Disposition: name=\"tableau_datasource\"; filename=\"Sales.tds\"\r\n".data
        = "Content-Disposition: name=\"tableau_datasource\"; filename=\"".data
          ++ "Sales".data ++ ".tds\"\r\n".data := by decide
    rw [hf]
    refine ⟨"--".data ++ "B1".data ++ "\r\n".data
      ++ "Content-Disposition: name=\"request_payload\"\r\n".data
      ++ "Content-Type: text/xml\r\n".data ++ "\r\n".data ++ xmlRepresentation.data
      ++ "\r\n--".data ++ "B1".data ++ "\r\n".data,
      "--".data ++ "B1".data ++ "--\r\n".data, ?_⟩
    simp only [publishPayload, String.data_append, List.append_assoc]
    rfl
  · have hb : "--B1--".data = "--".data ++ "B1".data ++ "--".data := by decide
    rw [hb]
    refine ⟨"--".data ++ "B1".data ++ "\r\n".data
      ++ "Content-Disposition: name=\"request_payload\"\r\n".data
      ++ "Content-Type: text/xml\r\n".data ++ "\r\n".data ++ xmlRepresentation.data
      ++ "\r\n--".data ++ "B1".data ++ "\r\n".data
      ++ "Content-Disposition: name=\"tableau_datasource\"; filename=\"".data ++ "Sales".data
      ++ ".tds\"\r\n".data ++ "Content-Type: application/octet-stream\r\n".data ++ "\r\n".data
      ++ "<rows/>".data ++ "\r\n".data, ?_⟩
    simp only [publishPayload, String.data_append, List.append_assoc]
    rfl

/-- C10: `ServerInfo` targets `<server>/api/2.4/serverinfo` with the literal
version `2.4` — its URL ignores the session's `Version` field — while every
other operation's URL interpolates the session's `Version` right after the
`/api/` segment. -/
theorem serverInfo_pins_api_version (api : API)
    (v siteID userID workbookID viewID datasourceID projectID key value encodedValues
      datasourceType : String) (includeStorage overwrite : Bool) :
    serverInfoURL api = api.Server ++ "/api/2.4/serverinfo" ∧
    serverInfoURL { api with Version := v } = serverInfoURL api ∧
    (∃ r, signinURL api = api.Server ++ "/api/" ++ api.Version ++ r) ∧
    (∃ r, signoutURL api = api.Server ++ "/api/" ++ api.Version ++ r) ∧
    (∃ r, querySitesURL api = api.Server ++ "/api/" ++ api.Version ++ r) ∧
    (∃ r, querySiteURL api siteID includeStorage = api.Server ++ "/api/" ++ api.Version ++ r) ∧
    (∃ r, querySiteByKeyURL api key value includeStorage
      = api.Server ++ "/api/" ++ api.Version ++ r) ∧
    (∃ r, queryUserOnSiteURL api siteID userID = api.Server ++ "/api/" ++ api.Version ++ r) ∧
    (∃ r, queryProjectsURL api siteID = api.Server ++ "/api/" ++ api.Version ++ r) ∧
    (∃ r, queryViewsURL api siteID = api.Server ++ "/api/" ++ api.Version ++ r) ∧
    (∃ r, queryWorkbookViewsURL api siteID workbookID encodedValues
      = api.Server ++ "/api/" ++ api.Version ++ r) ∧
    (∃ r, queryViewDataURL api siteID viewID = api.Server ++ "/api/" ++ api.Version ++ r) ∧
    (∃ r, queryWorkbooksURL api siteID encodedValues
      = api.Server ++ "/api/" ++ api.Version ++ r) ∧
    (∃ r, queryDatasourcesURL api siteID = api.Server ++ "/api/" ++ api.Version ++ r) ∧
    (∃ r, createProjectURL api siteID = api.Server ++ "/api/" ++ api.Version ++ r) ∧
    (∃ r, publishDatasourceURL api siteID datasourceType overwrite
      = api.Server ++ "/api/" ++ api.Version ++ r) ∧
    (∃ r, deleteDatasourceURL api siteID datasourceID
      = api.Server ++ "/api/" ++ api.Version ++ r) ∧
    (∃ r, deleteProjectURL api siteID projectID = api.Server ++ "/api/" ++ api.Version ++ r) ∧
    (∃ r, deleteSiteURL api siteID = api.Server ++ "/api/" ++ api.Version ++ r) ∧
    (∃ r, deleteSiteByKeyURL api key value = api.Server ++ "/api/" ++ api.Version ++ r) := by
  refine ⟨?_, rfl, ⟨"/auth/signin", rfl⟩, ⟨"/auth/signout", rfl⟩, ⟨"/sites/", rfl⟩,
    ?_, ?_, ?_, ?_, ?_, ?_, ?_, ?_, ?_, ?_, ?_, ?_, ?_, ?_, ?_⟩
  · simp [serverInfoURL, String.append_assoc]
  · cases includeStorage with
    | false => exact ⟨"/sites/" ++ siteID, by simp [querySiteURL, String.append_assoc]⟩
    | true => exact ⟨"/sites/" ++ siteID ++ "?includeStorage=" ++ goBool true,
        by simp [querySiteURL, String.append_assoc]⟩
  · cases includeStorage with
    | false => exact ⟨"/sites/" ++ value ++ "?key=" ++ key,
        by simp [querySiteByKeyURL, String.append_assoc]⟩
    | true => exact ⟨"/sites/" ++ value ++ "?key=" ++ key ++ "&includeStorage=" ++ goBool true,
        by simp [querySiteByKeyURL, String.append_assoc]⟩
  · exact ⟨"/sites/" ++ siteID ++ "/users/" ++ userID,
      by simp [queryUserOnSiteURL, String.append_assoc]⟩
  · exact ⟨"/sites/" ++ siteID ++ "/projects", by simp [queryProjectsURL, String.append_assoc]⟩
  · exact ⟨"/sites/" ++ siteID ++ "/views", by simp [queryViewsURL, String.append_assoc]⟩
  · by_cases he : encodedValues = ""
    · exact ⟨"/sites/" ++ siteID ++ "/workbooks/" ++ workbookID ++ "/views" ++ encodedValues,
        by simp [queryWorkbookViewsURL, he, String.append_assoc]⟩
    · exact ⟨"/sites/" ++ siteID ++ "/workbooks/" ++ workbookID ++ "/views"
          ++ ("?" ++ encodedValues),
        by simp [queryWorkbookViewsURL, he, String.append_assoc]⟩
  · exact ⟨"/sites/" ++ siteID ++ "/views/" ++ viewID ++ "/data",
      by simp [queryViewDataURL, String.append_assoc]⟩
  · by_cases he : encodedValues = ""
    · exact ⟨"/sites/" ++ siteID ++ "/workbooks" ++ encodedValues,
        by simp [queryWorkbooksURL, he, String.append_assoc]⟩
    · exact ⟨"/sites/" ++ siteID ++ "/workbooks" ++ ("?" ++ encodedValues),
        by simp [queryWorkbooksURL, he, String.append_assoc]⟩
  · exact ⟨"/sites/" ++ siteID ++ "/datasources",
      by simp [queryDatasourcesURL, String.append_assoc]⟩
  · exact ⟨"/sites/" ++ siteID ++ "/projects", by simp [createProjectURL, String.append_assoc]⟩
  · exact ⟨"/sites/" ++ siteID ++ "/datasources?datasourceType=" ++ datasourceType
        ++ "&overwrite=" ++ goBool overwrite,
      by simp [publishDatasourceURL, String.append_assoc]⟩
  · exact ⟨"/sites/" ++ siteID ++ "/datasources/" ++ datasourceID,
      by simp [deleteDatasourceURL, String.append_assoc]⟩
  · exact ⟨"/sites/" ++ siteID ++ "/projects/" ++ projectID,
      by simp [deleteProjectURL, String.append_assoc]⟩
  · exact ⟨"/sites/" ++ siteID, by simp [deleteSiteURL, String.append_assoc]⟩
  · exact ⟨"/sites/" ++ value ++ "?key=" ++ key,
      by simp [deleteSiteByKeyURL, String.append_assoc]⟩

end Tableau4go
